import Mathlib

/-!
Verification of the Legalyze backend (`backend/app.py`), a Flask server that
forwards legal-document text to a generative model and relays the reply.

The development shallowly embeds the five mutating HTTP handlers
(`simplify_document`, `analyze_red_flags`, `answer_question`,
`improve_contract`, `get_suggestions`) and the health endpoint as pure Lean
functions from a gateway mode (credential configured or not) and a parsed
request body to an HTTP response (status code plus JSON body).

Python's `json.loads` is modelled by an executable recursive-descent JSON
parser (`jsonLoads`); numeric literals are kept as their raw lexemes since
no behaviour of the program depends on numeric values.  Python exceptions
are modelled with `Except String`: each point where the handler body can
raise (attribute access on a non-string field, `KeyError` on a history
entry, `len()` of an unsized value, a model/transport failure) maps to an
`Except.error`, and the per-handler `try/except` maps every error to the
handler's generic 500 response.
-/

/-- JSON values as produced by `json.loads`.  Numbers keep their raw
lexeme (the program never inspects numeric values). -/
inductive Json where
  | null : Json
  | boolean : Bool → Json
  | num : String → Json
  | str : String → Json
  | arr : List Json → Json
  | obj : List (String × Json) → Json

/-- A JSON object / Python dict as an association list in insertion order. -/
abbrev Dict := List (String × Json)

/-- Dict lookup; the later of two bindings with the same key wins, as for a
Python dict built by repeated assignment. -/
def Dict.get (d : Dict) (k : String) : Option Json :=
  d.reverse.lookup k

/-- Characters stripped by Python `str.strip()` with no argument (the ASCII
whitespace set; Unicode whitespace is not modelled, no input here uses it). -/
def isPyWs (c : Char) : Bool :=
  c = ' ' || c = '\t' || c = '\n' || c = '\r' || c = '\x0b' || c = '\x0c'

/-- Python `s.strip()`. -/
def pyStrip (s : String) : String :=
  String.mk (((s.toList.dropWhile isPyWs).reverse.dropWhile isPyWs).reverse)

/-- Python `s.lower()` (ASCII case folding; the keyword routing in the
program only involves ASCII letters). -/
def pyLower (s : String) : String :=
  String.mk (s.toList.map Char.toLower)

/-- Prefix test on character lists. -/
def startsWithL : List Char → List Char → Bool
  | _, [] => true
  | [], _ :: _ => false
  | c :: cs, p :: ps => c == p && startsWithL cs ps

/-- Substring test on character lists. -/
def containsSub : List Char → List Char → Bool
  | [], pat => pat.isEmpty
  | c :: cs, pat => startsWithL (c :: cs) pat || containsSub cs pat

/-- Python `sub in s` for strings. -/
def pyContains (sub s : String) : Bool :=
  containsSub s.toList sub.toList

/-- Replace every occurrence of `pat` in `s` left to right.  The fuel is the
length of `s`; each step consumes at least one character when `pat` is
nonempty (every pattern in the program is nonempty). -/
def replaceL (fuel : Nat) (s pat rep : List Char) : List Char :=
  match fuel with
  | 0 => s
  | Nat.succ fuel =>
    match s with
    | [] => []
    | c :: cs =>
      if startsWithL (c :: cs) pat && !pat.isEmpty then
        rep ++ replaceL fuel ((c :: cs).drop pat.length) pat rep
      else
        c :: replaceL fuel cs pat rep

/-- Python `s.replace(pat, rep)`. -/
def pyReplace (s pat rep : String) : String :=
  String.mk (replaceL s.length s.toList pat.toList rep.toList)

mutual
/-- Python `repr` of a JSON-derived value, used by `str()` on non-string
values (string escaping inside reprs is not modelled; no claim depends on
it). -/
def pyReprJ : Json → String
  | .null => "None"
  | .boolean true => "True"
  | .boolean false => "False"
  | .num raw => raw
  | .str s => "\x27" ++ s ++ "\x27"
  | .arr l => "[" ++ pyReprList l ++ "]"
  | .obj l => "\x7b" ++ pyReprObj l ++ "\x7d"
/-- Comma-separated reprs of list elements. -/
def pyReprList : List Json → String
  | [] => ""
  | [x] => pyReprJ x
  | x :: y :: xs => pyReprJ x ++ ", " ++ pyReprList (y :: xs)
/-- Comma-separated reprs of dict entries. -/
def pyReprObj : List (String × Json) → String
  | [] => ""
  | [(k, v)] => "\x27" ++ k ++ "\x27: " ++ pyReprJ v
  | (k, v) :: y :: xs => "\x27" ++ k ++ "\x27: " ++ pyReprJ v ++ ", " ++ pyReprObj (y :: xs)
end

/-- Python `str()` as used by f-string interpolation: a string interpolates
as itself, any other value as its repr. -/
def pyStrJ : Json → String
  | .str s => s
  | j => pyReprJ j

/-- Whether a JSON number lexeme denotes a nonzero value (for Python
truthiness): nonzero iff some mantissa digit is nonzero, or it is one of the
non-finite literals. -/
def numNonzero (raw : String) : Bool :=
  raw == "NaN" || raw == "Infinity" || raw == "-Infinity" ||
    (raw.toList.takeWhile (fun c => c != 'e' && c != 'E')).any
      (fun c => c.isDigit && c != '0')

/-- Python truthiness of a JSON-derived value. -/
def jTruthy : Json → Bool
  | .null => false
  | .boolean b => b
  | .num raw => numNonzero raw
  | .str s => s != ""
  | .arr l => !l.isEmpty
  | .obj l => !l.isEmpty

/-- Python subscript `j[k]` with a string key: a `KeyError` on a dict
missing the key, a `TypeError` on any non-dict value. -/
def pyGetItem (j : Json) (k : String) : Except String Json :=
  match j with
  | .obj l =>
    match Dict.get l k with
    | some v => .ok v
    | none => .error "KeyError"
  | _ => .error "TypeError"

/-- Python `len()`: defined for strings, lists and dicts, a `TypeError`
otherwise. -/
def pyLen : Json → Except String Nat
  | .str s => .ok s.length
  | .arr l => .ok l.length
  | .obj l => .ok l.length
  | _ => .error "TypeError"

/-- JSON insignificant whitespace. -/
def isJsonWs (c : Char) : Bool :=
  c = ' ' || c = '\t' || c = '\n' || c = '\r'

/-- Skip leading JSON whitespace. -/
def skipJsonWs : List Char → List Char
  | [] => []
  | c :: cs => if isJsonWs c then skipJsonWs cs else c :: cs

/-- Value of a hexadecimal digit. -/
def hexVal (c : Char) : Option Nat :=
  if '0' ≤ c ∧ c ≤ '9' then some (c.toNat - '0'.toNat)
  else if 'a' ≤ c ∧ c ≤ 'f' then some (c.toNat - 'a'.toNat + 10)
  else if 'A' ≤ c ∧ c ≤ 'F' then some (c.toNat - 'A'.toNat + 10)
  else none

/-- Parse the body of a JSON string after the opening quote, returning the
decoded characters and the remaining input after the closing quote.
Surrogate-pair combination for `\uXXXX` escapes is not modelled. -/
def parseStrChars : List Char → Option (List Char × List Char)
  | [] => none
  | '"' :: rest => some ([], rest)
  | '\\' :: 'n' :: rest => (fun p => ('\n' :: p.1, p.2)) <$> parseStrChars rest
  | '\\' :: 't' :: rest => (fun p => ('\t' :: p.1, p.2)) <$> parseStrChars rest
  | '\\' :: 'r' :: rest => (fun p => ('\r' :: p.1, p.2)) <$> parseStrChars rest
  | '\\' :: 'b' :: rest => (fun p => (Char.ofNat 8 :: p.1, p.2)) <$> parseStrChars rest
  | '\\' :: 'f' :: rest => (fun p => (Char.ofNat 12 :: p.1, p.2)) <$> parseStrChars rest
  | '\\' :: '"' :: rest => (fun p => ('"' :: p.1, p.2)) <$> parseStrChars rest
  | '\\' :: '\\' :: rest => (fun p => ('\\' :: p.1, p.2)) <$> parseStrChars rest
  | '\\' :: '/' :: rest => (fun p => ('/' :: p.1, p.2)) <$> parseStrChars rest
  | '\\' :: 'u' :: a :: b :: c :: d :: rest => do
      let ha ← hexVal a
      let hb ← hexVal b
      let hc ← hexVal c
      let hd ← hexVal d
      let p ← parseStrChars rest
      some (Char.ofNat (((ha * 16 + hb) * 16 + hc) * 16 + hd) :: p.1, p.2)
  | '\\' :: _ => none
  | c :: rest =>
      if c.toNat < 32 then none
      else (fun p => (c :: p.1, p.2)) <$> parseStrChars rest

/-- Longest prefix of decimal digits. -/
def takeDigits : List Char → (List Char × List Char)
  | [] => ([], [])
  | c :: cs =>
      if c.isDigit then
        let (d, r) := takeDigits cs
        (c :: d, r)
      else ([], c :: cs)

/-- Lex a JSON number (sign, integer part without leading zeros, optional
fraction, optional exponent), returning the lexeme and the rest. -/
def parseNumLex (s : List Char) : Option (List Char × List Char) :=
  let (negPart, s1) := match s with
    | '-' :: r => ([('-' : Char)], r)
    | _ => (([] : List Char), s)
  match s1 with
  | c :: _ =>
    if c.isDigit then
      let (ip, r1) := takeDigits s1
      if ip.length > 1 ∧ ip.headD '0' = '0' then none
      else
        let (fp, r2) := match r1 with
          | '.' :: r =>
            let (ds, rr) := takeDigits r
            if ds.isEmpty then (([] : List Char), r1) else ('.' :: ds, rr)
          | _ => ([], r1)
        if (match r1 with | '.' :: _ => fp.isEmpty | _ => False) then none
        else
          let (ep, r3) := match r2 with
            | 'e' :: '+' :: r =>
              let (ds, rr) := takeDigits r
              if ds.isEmpty then (([] : List Char), r2) else ('e' :: '+' :: ds, rr)
            | 'e' :: '-' :: r =>
              let (ds, rr) := takeDigits r
              if ds.isEmpty then (([] : List Char), r2) else ('e' :: '-' :: ds, rr)
            | 'e' :: r =>
              let (ds, rr) := takeDigits r
              if ds.isEmpty then (([] : List Char), r2) else ('e' :: ds, rr)
            | 'E' :: '+' :: r =>
              let (ds, rr) := takeDigits r
              if ds.isEmpty then (([] : List Char), r2) else ('E' :: '+' :: ds, rr)
            | 'E' :: '-' :: r =>
              let (ds, rr) := takeDigits r
              if ds.isEmpty then (([] : List Char), r2) else ('E' :: '-' :: ds, rr)
            | 'E' :: r =>
              let (ds, rr) := takeDigits r
              if ds.isEmpty then (([] : List Char), r2) else ('E' :: ds, rr)
            | _ => ([], r2)
          if (match r2 with | 'e' :: _ => ep.isEmpty | 'E' :: _ => ep.isEmpty | _ => False)
          then none
          else some (negPart ++ ip ++ fp ++ ep, r3)
    else none
  | [] => none

mutual
/-- Parse one JSON value from the input, fuel-bounded.  Mirrors the grammar
accepted by Python `json.loads` (including the non-standard NaN/Infinity
literals it accepts by default). -/
def parseVal : Nat → List Char → Option (Json × List Char)
  | 0, _ => none
  | Nat.succ fuel, s =>
    match skipJsonWs s with
    | '"' :: rest => (fun p => (Json.str (String.mk p.1), p.2)) <$> parseStrChars rest
    | '[' :: rest =>
      (match skipJsonWs rest with
       | ']' :: r => some (Json.arr [], r)
       | r => parseArrRest fuel [] r)
    | '\x7b' :: rest =>
      (match skipJsonWs rest with
       | '\x7d' :: r => some (Json.obj [], r)
       | r => parseObjRest fuel [] r)
    | r =>
      if startsWithL r "true".toList then some (Json.boolean true, r.drop 4)
      else if startsWithL r "false".toList then some (Json.boolean false, r.drop 5)
      else if startsWithL r "null".toList then some (Json.null, r.drop 4)
      else if startsWithL r "NaN".toList then some (Json.num "NaN", r.drop 3)
      else if startsWithL r "Infinity".toList then some (Json.num "Infinity", r.drop 8)
      else if startsWithL r "-Infinity".toList then some (Json.num "-Infinity", r.drop 9)
      else (fun p => (Json.num (String.mk p.1), p.2)) <$> parseNumLex r

/-- Parse the remaining comma-separated elements of a nonempty array. -/
def parseArrRest : Nat → List Json → List Char → Option (Json × List Char)
  | 0, _, _ => none
  | Nat.succ fuel, acc, s => do
    let (v, r1) ← parseVal fuel s
    match skipJsonWs r1 with
    | ',' :: r2 => parseArrRest fuel (acc ++ [v]) r2
    | ']' :: r2 => some (Json.arr (acc ++ [v]), r2)
    | _ => none

/-- Parse the remaining comma-separated members of a nonempty object. -/
def parseObjRest : Nat → Dict → List Char → Option (Json × List Char)
  | 0, _, _ => none
  | Nat.succ fuel, acc, s =>
    match skipJsonWs s with
    | '"' :: rest => do
      let (kcs, r1) ← parseStrChars rest
      match skipJsonWs r1 with
      | ':' :: r2 => do
        let (v, r3) ← parseVal fuel r2
        match skipJsonWs r3 with
        | ',' :: r4 => parseObjRest fuel (acc ++ [(String.mk kcs, v)]) r4
        | '\x7d' :: r4 => some (Json.obj (acc ++ [(String.mk kcs, v)]), r4)
        | _ => none
      | _ => none
    | _ => none
end

/-- Python `json.loads`: one JSON value surrounded by optional whitespace;
`none` models a raised `json.JSONDecodeError`.  The fuel bound exceeds the
maximum possible number of recursion steps for the input length. -/
def jsonLoads (s : String) : Option Json :=
  match parseVal (2 * s.length + 2) s.toList with
  | some (v, rest) => if (skipJsonWs rest).isEmpty then some v else none
  | none => none

/-- Fence stripping applied to the already-stripped model reply in
`analyze_red_flags` and `get_suggestions`: drop the first 7 characters when
the text starts with the opening tag, then drop the last 3 characters when
the (possibly shortened) text ends with three backticks. -/
def stripCodeFence (t : String) : String :=
  let l := t.toList
  let l := if startsWithL l "```json".toList then l.drop 7 else l
  let l := if startsWithL l.reverse "```".toList.reverse then l.take (l.length - 3) else l
  String.mk l

/-- An HTTP response: status code and JSON body (`jsonify` result). -/
structure Resp where
  status : Nat
  body : Json

/-- The module-level model handle: absent when `GEMINI_API_KEY` is not set,
otherwise a generation function from prompt to reply text, where an
exception from `generate_content` / `.text` is an `Except.error` carrying
its message. -/
inductive Gateway where
  | noCred : Gateway
  | cred : (String → Except String String) → Gateway

/-- Whether the model handle is initialized (`model is not None`). -/
def Gateway.isConfigured : Gateway → Bool
  | .noCred => false
  | .cred _ => true

/-- Body of an error response. -/
def errBody (m : String) : Json :=
  Json.obj [("error", Json.str m)]

/-- Prompt template of `simplify_document` with the document text
interpolated. -/
def simplify_prompt (document_text : String) : String :=
  "\n        You are a legal document simplifier. Take this legal document and create a clear, easy-to-understand summary.\n\n        Document to analyze:\n        " ++ document_text ++ "\n\n        Please provide a simplified summary with:\n        1. Key points in bullet format\n        2. Important dates and deadlines\n        3. Financial obligations and costs\n        4. Rights and responsibilities\n        5. Potential risks or penalties\n\n        Format the response in clear sections with bullet points. Use simple language that anyone can understand.\n        "

/-- Prompt template of `analyze_red_flags` with the document text
interpolated. -/
def redflags_prompt (document_text : String) : String :=
  "\n        You are a legal expert analyzing a contract for potential risks. Analyze this document and identify clauses with their risk levels.\n\n        Document to analyze:\n        " ++ document_text ++ "\n\n        For each important clause, determine:\n        - The specific clause text\n        - Risk level: \"safe\", \"moderate\", or \"dangerous\"\n        - Clear explanation of why it\x27s risky and the potential impact\n\n        Return your response as a valid JSON array with objects containing:\n        \x7b\"clause\": \"exact clause text\", \"risk\": \"safe/moderate/dangerous\", \"explanation\": \"detailed explanation\"\x7d\n\n        Focus on:\n        - Payment terms and penalties\n        - Termination clauses\n        - Liability and responsibility assignments\n        - Unusual or unfavorable terms\n        - Hidden costs or fees\n\n        Return ONLY the JSON array, no other text.\n        "

/-- Prompt template of `answer_question` with the document text, the
conversational context and the question interpolated. -/
def qa_prompt (document_text context question : String) : String :=
  "\n        You are a helpful legal assistant. Answer the user\x27s question about their legal document clearly and accurately.\n        \n        Document content:\n        " ++ document_text ++ "\n        \n        " ++ context ++ "\n        \n        User\x27s question: " ++ question ++ "\n        \n        Please provide a clear, helpful answer that:\n        1. Directly addresses the user\x27s question\n        2. References specific parts of the document when relevant\n        3. Explains legal terms in simple language\n        4. Highlights any important implications or risks\n        5. Suggests next steps if appropriate\n        \n        Keep your answer concise but comprehensive. Use bullet points when listing multiple items.\n        "

/-- Prompt template of `improve_contract` with the contract text
interpolated. -/
def improve_prompt (contract_text : String) : String :=
  "\n        You are a legal expert helping to improve a contract. Review this contract and make it more fair and balanced for both parties.\n        \n        Original contract:\n        " ++ contract_text ++ "\n        \n        Please provide an improved version that:\n        1. Reduces unfair penalties and fees\n        2. Adds more reasonable terms\n        3. Clarifies ambiguous language\n        4. Balances rights and responsibilities\n        5. Includes standard protective clauses\n        \n        Return the complete improved contract text, maintaining the same structure but with better terms.\n        "

/-- Prompt template of `get_suggestions` with the contract text
interpolated. -/
def suggestions_prompt (contract_text : String) : String :=
  "\n        You are a legal expert analyzing a contract. Provide specific improvement suggestions.\n        \n        Contract text:\n        " ++ contract_text ++ "\n        \n        Analyze the contract and provide 3-5 specific suggestions for improvement. For each suggestion, provide:\n        - A clear title describing the improvement\n        - A detailed description explaining why this change is beneficial\n        - The impact on fairness and risk\n        \n        Focus on:\n        1. Reducing unfair penalties\n        2. Balancing power between parties\n        3. Clarifying ambiguous terms\n        4. Adding protective clauses\n        5. Improving financial terms\n        \n        Return your response as a valid JSON array with objects containing:\n        \x7b\"title\": \"suggestion title\", \"description\": \"detailed explanation\"\x7d\n        \n        Return ONLY the JSON array, no other text.\n        "

/-- Canned `simplified_text` returned by `simplify_document` when no
credential is configured. -/
def simplifyMock : String :=
  "\n**SIMPLIFIED SUMMARY**\n\n**Key Points:**\n• Monthly rent: ₹25,000 due on 1st of each month\n• Security deposit: ₹75,000 (refundable at lease end)\n• Lease duration: 12 months starting January 1, 2024\n• Late payment fee: ₹500 per day after 5-day grace period\n• Early exit penalty: 2 months rent if leaving before 6 months\n\n**Important Dates:**\n• Lease starts: January 1, 2024\n• No-penalty exit possible after: July 1, 2024\n• Rent increase: 10% after first year\n\n**Your Responsibilities:**\n• Pay rent by 1st of each month\n• Handle minor repairs under ₹5,000\n• Get approval for pets or subletting\n• Allow property inspections with 24-hour notice\n\n**Financial Impact:**\n• Total annual cost: ₹3,00,000 (rent) + ₹75,000 (deposit)\n• Potential late fees: Up to ₹15,000 per month\n• Early exit cost: ₹50,000 (if within first 6 months)\n                "

/-- Canned red-flags array returned by `analyze_red_flags` when no
credential is configured. -/
def redflagsMock : Json :=
  Json.arr [
    Json.obj [("clause", Json.str "Monthly rent: ₹25,000 due on the 1st of each month"),
      ("risk", Json.str "safe"),
      ("explanation", Json.str "Standard rent payment terms with clear due date. This is normal and reasonable.")],
    Json.obj [("clause", Json.str "Late fee: ₹500 per day after 5 days grace period"),
      ("risk", Json.str "moderate"),
      ("explanation", Json.str "Daily late fees can accumulate quickly (₹15,000/month). This is higher than typical market rates.")],
    Json.obj [("clause", Json.str "Security deposit: ₹75,000 (3 months rent)"),
      ("risk", Json.str "moderate"),
      ("explanation", Json.str "Three months security deposit is above average. Standard is usually 1-2 months rent.")],
    Json.obj [("clause", Json.str "Early termination penalty: 2 months rent if terminated before 6 months"),
      ("risk", Json.str "dangerous"),
      ("explanation", Json.str "₹50,000 penalty for early exit is very high. Consider negotiating a graduated penalty structure.")],
    Json.obj [("clause", Json.str "Rent increase: 10% annually after first year"),
      ("risk", Json.str "dangerous"),
      ("explanation", Json.str "10% annual increase is above market inflation. This could significantly impact your budget over time.")],
    Json.obj [("clause", Json.str "Tenant responsible for minor repairs under ₹5,000"),
      ("risk", Json.str "moderate"),
      ("explanation", Json.str "₹5,000 threshold is reasonable, but ensure \x27minor repairs\x27 are clearly defined to avoid disputes.")]]

/-- Fallback record substituted by `analyze_red_flags` when the model reply
fails to parse as JSON. -/
def redflagsParseFallback : Json :=
  Json.obj [("clause", Json.str "Unable to parse contract clauses"),
    ("risk", Json.str "moderate"),
    ("explanation", Json.str "There was an issue analyzing your contract. Please try uploading again or contact support.")]

/-- Canned answer for risk questions in no-credential mode. -/
def qaMockRisk : String :=
  "Based on the rental agreement, the main risks include: high daily late fees (₹500/day), significant early termination penalty (₹60,000), annual rent increases of 15%, and tenant responsibility for repairs up to ₹10,000."

/-- Canned answer for termination questions in no-credential mode. -/
def qaMockTerminate : String :=
  "You can terminate this contract early, but there are penalties: 3 months notice is required, and if you terminate within the first 12 months, you must pay a penalty of ₹60,000. After 18 months (lock-in period), you can exit with just the 3 months notice."

/-- Canned answer for financial questions in no-credential mode. -/
def qaMockFinancial : String :=
  "Your financial obligations include: Monthly rent of ₹30,000, security deposit of ₹90,000, society maintenance charges of ₹2,500/month, electricity and water bills, potential repair costs up to ₹10,000, and possible parking fees of ₹3,000/month for a second vehicle."

/-- Default canned answer in no-credential mode. -/
def qaMockDefaultAnswer : String :=
  "I can help you understand any aspect of your legal document. Please ask specific questions about clauses, terms, risks, or obligations."

/-- Keyword routing among the canned answers in no-credential mode,
applied to the (already stripped) question. -/
def qaMockAnswer (question : String) : String :=
  let question_lower := pyLower question
  if pyContains "risk" question_lower || pyContains "danger" question_lower then
    qaMockRisk
  else if pyContains "terminate" question_lower || pyContains "exit" question_lower
      || pyContains "leave" question_lower then
    qaMockTerminate
  else if pyContains "financial" question_lower || pyContains "money" question_lower
      || pyContains "cost" question_lower || pyContains "pay" question_lower then
    qaMockFinancial
  else
    qaMockDefaultAnswer

/-- Canned suggestions array returned by `get_suggestions` when no
credential is configured. -/
def suggestionsMock : Json :=
  Json.arr [
    Json.obj [("title", Json.str "Reduce Late Payment Penalty"),
      ("description", Json.str "The current ₹500/day late fee is excessive. Industry standard is ₹100-200/day."),
      ("replacement_text", Json.null)],
    Json.obj [("title", Json.str "Add Grace Period for Rent Increase"),
      ("description", Json.str "15% annual increase is high. Suggest capping at 8% or market rate, whichever is lower."),
      ("replacement_text", Json.null)],
    Json.obj [("title", Json.str "Clarify Repair Responsibilities"),
      ("description", Json.str "Define \x27minor repairs\x27 more clearly to avoid disputes about the ₹10,000 threshold."),
      ("replacement_text", Json.null)],
    Json.obj [("title", Json.str "Add Tenant Protection Clause"),
      ("description", Json.str "Include protection against arbitrary eviction and ensure proper notice periods."),
      ("replacement_text", Json.null)]]

/-- Fallback record substituted by `get_suggestions` when the model reply
fails to parse as JSON. -/
def suggestionsParseFallback : Json :=
  Json.obj [("title", Json.str "Review Contract Terms"),
    ("description", Json.str "There was an issue analyzing your contract. Please try again or contact support.")]

/-- The three replacements applied to the contract text by
`improve_contract` in no-credential mode. -/
def improveMock (contract_text : String) : String :=
  pyReplace (pyReplace (pyReplace contract_text
    "₹500 per day after 5 days grace period"
    "₹200 per day after 7 days grace period")
    "15% annually after first year"
    "8% annually after first year, capped at market rates")
    "penalty of ₹60,000 if terminated within first 12 months"
    "graduated penalty: ₹30,000 if terminated within 6 months, ₹15,000 if terminated within 12 months"

/-- Render one history entry for the conversational context:
`f"Q: ...question...\nA: ...answer...\n\n"`, where the subscripts raise on a
malformed entry. -/
def qaRenderItem (item : Json) : Except String String :=
  match pyGetItem item "question" with
  | .error e => .error e
  | .ok qv =>
    match pyGetItem item "answer" with
    | .error e => .error e
    | .ok av => .ok ("Q: " ++ pyStrJ qv ++ "\nA: " ++ pyStrJ av ++ "\n\n")

/-- Accumulate the rendered history entries in order, propagating the first
exception. -/
def qaContextLoop : List Json → Except String String
  | [] => .ok ""
  | item :: rest =>
    match qaRenderItem item with
    | .error e => .error e
    | .ok s =>
      match qaContextLoop rest with
      | .error e => .error e
      | .ok t => .ok (s ++ t)

/-- Conversational context built by `answer_question` from the `history`
value: empty when the history is falsy; for a nonempty list, a header
followed by the renderings of the last three entries (`history[-3:]`) in
order.  A truthy non-list history raises (slicing or subscripting a
non-sequence), which the handler's generic `except` turns into a 500. -/
def qaContext (history : Json) : Except String String :=
  if jTruthy history then
    match history with
    | Json.arr items =>
      match qaContextLoop (items.drop (items.length - 3)) with
      | .error e => .error e
      | .ok body => .ok ("\n\nPrevious conversation:\n" ++ body)
    | _ => .error "TypeError"
  else
    .ok ""

/-- Handler of `POST /api/simplify`. -/
def simplify_document (gw : Gateway) (data : Option Dict) : Resp :=
  match data with
  | none => ⟨400, errBody "No document text provided"⟩
  | some d =>
    if d.isEmpty || (Dict.get d "text").isNone then
      ⟨400, errBody "No document text provided"⟩
    else
      match (Dict.get d "text").getD Json.null with
      | Json.str s =>
        let document_text := pyStrip s
        if document_text = "" then ⟨400, errBody "Empty document text"⟩
        else
          match gw with
          | .noCred => ⟨200, Json.obj [("simplified_text", Json.str simplifyMock)]⟩
          | .cred gen =>
            match gen (simplify_prompt document_text) with
            | .error _ => ⟨500, errBody "Failed to process document. Please try again."⟩
            | .ok simplified_text =>
              ⟨200, Json.obj [("simplified_text", Json.str simplified_text)]⟩
      | _ => ⟨500, errBody "Failed to process document. Please try again."⟩

/-- Handler of `POST /api/redflags`.  After a successful parse the logging
line evaluates `len(red_flags)`, which raises on an unsized value and turns
into the generic 500. -/
def analyze_red_flags (gw : Gateway) (data : Option Dict) : Resp :=
  match data with
  | none => ⟨400, errBody "No document text provided"⟩
  | some d =>
    if d.isEmpty || (Dict.get d "text").isNone then
      ⟨400, errBody "No document text provided"⟩
    else
      match (Dict.get d "text").getD Json.null with
      | Json.str s =>
        let document_text := pyStrip s
        if document_text = "" then ⟨400, errBody "Empty document text"⟩
        else
          match gw with
          | .noCred => ⟨200, redflagsMock⟩
          | .cred gen =>
            match gen (redflags_prompt document_text) with
            | .error _ => ⟨500, errBody "Failed to analyze document. Please try again."⟩
            | .ok reply =>
              let response_text := stripCodeFence (pyStrip reply)
              let red_flags :=
                match jsonLoads response_text with
                | some v => v
                | none => Json.arr [redflagsParseFallback]
              match pyLen red_flags with
              | .error _ => ⟨500, errBody "Failed to analyze document. Please try again."⟩
              | .ok _ => ⟨200, red_flags⟩
      | _ => ⟨500, errBody "Failed to analyze document. Please try again."⟩

/-- Handler of `POST /api/qa`. -/
def answer_question (gw : Gateway) (data : Option Dict) : Resp :=
  match data with
  | none => ⟨400, errBody "Document text and question are required"⟩
  | some d =>
    if d.isEmpty || (Dict.get d "text").isNone || (Dict.get d "question").isNone then
      ⟨400, errBody "Document text and question are required"⟩
    else
      match (Dict.get d "text").getD Json.null, (Dict.get d "question").getD Json.null with
      | Json.str t, Json.str q =>
        let document_text := pyStrip t
        let question := pyStrip q
        let history := (Dict.get d "history").getD (Json.arr [])
        if document_text = "" || question = "" then
          ⟨400, errBody "Both document text and question must be provided"⟩
        else
          match gw with
          | .noCred => ⟨200, Json.obj [("answer", Json.str (qaMockAnswer question))]⟩
          | .cred gen =>
            match qaContext history with
            | .error _ => ⟨500, errBody "Failed to process question. Please try again."⟩
            | .ok context =>
              match gen (qa_prompt document_text context question) with
              | .error _ => ⟨500, errBody "Failed to process question. Please try again."⟩
              | .ok answer => ⟨200, Json.obj [("answer", Json.str answer)]⟩
      | _, _ => ⟨500, errBody "Failed to process question. Please try again."⟩

/-- Handler of `POST /api/improve`. -/
def improve_contract (gw : Gateway) (data : Option Dict) : Resp :=
  match data with
  | none => ⟨400, errBody "No contract text provided"⟩
  | some d =>
    if d.isEmpty || (Dict.get d "text").isNone then
      ⟨400, errBody "No contract text provided"⟩
    else
      match (Dict.get d "text").getD Json.null with
      | Json.str s =>
        let contract_text := pyStrip s
        if contract_text = "" then ⟨400, errBody "Empty contract text"⟩
        else
          match gw with
          | .noCred => ⟨200, Json.obj [("improved_text", Json.str (improveMock contract_text))]⟩
          | .cred gen =>
            match gen (improve_prompt contract_text) with
            | .error _ => ⟨500, errBody "Failed to improve contract. Please try again."⟩
            | .ok improved_text =>
              ⟨200, Json.obj [("improved_text", Json.str improved_text)]⟩
      | _ => ⟨500, errBody "Failed to improve contract. Please try again."⟩

/-- Handler of `POST /api/suggestions`.  As in `analyze_red_flags`, the
logging line evaluates `len(suggestions)` after a successful parse. -/
def get_suggestions (gw : Gateway) (data : Option Dict) : Resp :=
  match data with
  | none => ⟨400, errBody "No contract text provided"⟩
  | some d =>
    if d.isEmpty || (Dict.get d "text").isNone then
      ⟨400, errBody "No contract text provided"⟩
    else
      match (Dict.get d "text").getD Json.null with
      | Json.str s =>
        let contract_text := pyStrip s
        if contract_text = "" then ⟨400, errBody "Empty contract text"⟩
        else
          match gw with
          | .noCred => ⟨200, Json.obj [("suggestions", suggestionsMock)]⟩
          | .cred gen =>
            match gen (suggestions_prompt contract_text) with
            | .error _ => ⟨500, errBody "Failed to generate suggestions. Please try again."⟩
            | .ok reply =>
              let response_text := stripCodeFence (pyStrip reply)
              let suggestions :=
                match jsonLoads response_text with
                | some v => v
                | none => Json.arr [suggestionsParseFallback]
              match pyLen suggestions with
              | .error _ => ⟨500, errBody "Failed to generate suggestions. Please try again."⟩
              | .ok _ => ⟨200, Json.obj [("suggestions", suggestions)]⟩
      | _ => ⟨500, errBody "Failed to generate suggestions. Please try again."⟩

/-- Handler of `GET /api/health`. -/
def health_check (gw : Gateway) : Resp :=
  ⟨200, Json.obj [("status", Json.str "healthy"),
    ("gemini_configured", Json.boolean gw.isConfigured),
    ("version", Json.str "1.0.0")]⟩

/-- Closed form of `simplify_document` in credential mode on a request with
a single `text` field. -/
theorem simplify_document_cred_eq (gen : String → Except String String) (t : String) :
    simplify_document (.cred gen) (some [("text", Json.str t)]) =
      (if pyStrip t = "" then ⟨400, errBody "Empty document text"⟩
       else
         match gen (simplify_prompt (pyStrip t)) with
         | .error _ => ⟨500, errBody "Failed to process document. Please try again."⟩
         | .ok simplified_text =>
           ⟨200, Json.obj [("simplified_text", Json.str simplified_text)]⟩) := rfl

/-- Closed form of `analyze_red_flags` in credential mode on a request with
a single `text` field. -/
theorem analyze_red_flags_cred_eq (gen : String → Except String String) (t : String) :
    analyze_red_flags (.cred gen) (some [("text", Json.str t)]) =
      (if pyStrip t = "" then ⟨400, errBody "Empty document text"⟩
       else
         match gen (redflags_prompt (pyStrip t)) with
         | .error _ => ⟨500, errBody "Failed to analyze document. Please try again."⟩
         | .ok reply =>
           let red_flags :=
             match jsonLoads (stripCodeFence (pyStrip reply)) with
             | some v => v
             | none => Json.arr [redflagsParseFallback]
           match pyLen red_flags with
           | .error _ => ⟨500, errBody "Failed to analyze document. Please try again."⟩
           | .ok _ => ⟨200, red_flags⟩) := rfl

/-- Closed form of `get_suggestions` in credential mode on a request with a
single `text` field. -/
theorem get_suggestions_cred_eq (gen : String → Except String String) (t : String) :
    get_suggestions (.cred gen) (some [("text", Json.str t)]) =
      (if pyStrip t = "" then ⟨400, errBody "Empty contract text"⟩
       else
         match gen (suggestions_prompt (pyStrip t)) with
         | .error _ => ⟨500, errBody "Failed to generate suggestions. Please try again."⟩
         | .ok reply =>
           let suggestions :=
             match jsonLoads (stripCodeFence (pyStrip reply)) with
             | some v => v
             | none => Json.arr [suggestionsParseFallback]
           match pyLen suggestions with
           | .error _ => ⟨500, errBody "Failed to generate suggestions. Please try again."⟩
           | .ok _ => ⟨200, Json.obj [("suggestions", suggestions)]⟩) := rfl

/-- Closed form of `improve_contract` in credential mode on a request with
a single `text` field. -/
theorem improve_contract_cred_eq (gen : String → Except String String) (t : String) :
    improve_contract (.cred gen) (some [("text", Json.str t)]) =
      (if pyStrip t = "" then ⟨400, errBody "Empty contract text"⟩
       else
         match gen (improve_prompt (pyStrip t)) with
         | .error _ => ⟨500, errBody "Failed to improve contract. Please try again."⟩
         | .ok improved_text =>
           ⟨200, Json.obj [("improved_text", Json.str improved_text)]⟩) := rfl

/-- Closed form of `answer_question` in credential mode on a request with
`text`, `question` and `history` fields. -/
theorem answer_question_cred_eq (gen : String → Except String String) (t q : String)
    (h : Json) :
    answer_question (.cred gen)
        (some [("text", Json.str t), ("question", Json.str q), ("history", h)]) =
      (if pyStrip t = "" || pyStrip q = "" then
         ⟨400, errBody "Both document text and question must be provided"⟩
       else
         match qaContext h with
         | .error _ => ⟨500, errBody "Failed to process question. Please try again."⟩
         | .ok context =>
           match gen (qa_prompt (pyStrip t) context (pyStrip q)) with
           | .error _ => ⟨500, errBody "Failed to process question. Please try again."⟩
           | .ok answer => ⟨200, Json.obj [("answer", Json.str answer)]⟩) := rfl

/-- Closed form of `answer_question` in credential mode on a request
without a `history` field: the default empty history is falsy, so the
context is empty. -/
theorem answer_question_cred_nohist_eq (gen : String → Except String String) (t q : String) :
    answer_question (.cred gen) (some [("text", Json.str t), ("question", Json.str q)]) =
      (if pyStrip t = "" || pyStrip q = "" then
         ⟨400, errBody "Both document text and question must be provided"⟩
       else
         match gen (qa_prompt (pyStrip t) "" (pyStrip q)) with
         | .error _ => ⟨500, errBody "Failed to process question. Please try again."⟩
         | .ok answer => ⟨200, Json.obj [("answer", Json.str answer)]⟩) := rfl

/-- Closed form of `simplify_document` in no-credential mode on a request
with a single `text` field. -/
theorem simplify_document_noCred_eq (t : String) :
    simplify_document .noCred (some [("text", Json.str t)]) =
      (if pyStrip t = "" then ⟨400, errBody "Empty document text"⟩
       else ⟨200, Json.obj [("simplified_text", Json.str simplifyMock)]⟩) := rfl

/-- Closed form of `analyze_red_flags` in no-credential mode on a request
with a single `text` field. -/
theorem analyze_red_flags_noCred_eq (t : String) :
    analyze_red_flags .noCred (some [("text", Json.str t)]) =
      (if pyStrip t = "" then ⟨400, errBody "Empty document text"⟩
       else ⟨200, redflagsMock⟩) := rfl

/-- Closed form of `get_suggestions` in no-credential mode on a request
with a single `text` field. -/
theorem get_suggestions_noCred_eq (t : String) :
    get_suggestions .noCred (some [("text", Json.str t)]) =
      (if pyStrip t = "" then ⟨400, errBody "Empty contract text"⟩
       else ⟨200, Json.obj [("suggestions", suggestionsMock)]⟩) := rfl

/-- Closed form of `improve_contract` in no-credential mode on a request
with a single `text` field. -/
theorem improve_contract_noCred_eq (t : String) :
    improve_contract .noCred (some [("text", Json.str t)]) =
      (if pyStrip t = "" then ⟨400, errBody "Empty contract text"⟩
       else ⟨200, Json.obj [("improved_text", Json.str (improveMock (pyStrip t)))]⟩) := rfl

/-- Closed form of `answer_question` in no-credential mode on a request
with `text` and `question` fields. -/
theorem answer_question_noCred_eq (t q : String) :
    answer_question .noCred (some [("text", Json.str t), ("question", Json.str q)]) =
      (if pyStrip t = "" || pyStrip q = "" then
         ⟨400, errBody "Both document text and question must be provided"⟩
       else ⟨200, Json.obj [("answer", Json.str (qaMockAnswer (pyStrip q)))]⟩) := rfl

/-- The literal fenced model reply from the specification example. -/
def fencedReplyLit : String :=
  "```json\n[\x7b\"clause\":\"a\",\"risk\":\"safe\",\"explanation\":\"b\"\x7d]\n```"

/-- The one-element array that the specification example parses to. -/
def parsedClauseLit : Json :=
  Json.arr [Json.obj [("clause", Json.str "a"), ("risk", Json.str "safe"),
    ("explanation", Json.str "b")]]

/-- C1: the Response Extractor trims the model reply, strips the leading 7
characters of a reply starting with the json fence tag and the trailing 3
characters of a reply then ending with three backticks, and parses the rest
as JSON; on the literal spec example both structured endpoints return the
parsed one-element array with status 200 (the suggestions endpoint wraps it
under its `suggestions` key). -/
theorem spec_C1 :
    analyze_red_flags (.cred fun _ => .ok fencedReplyLit) (some [("text", Json.str "doc")]) =
      ⟨200, parsedClauseLit⟩ ∧
    get_suggestions (.cred fun _ => .ok fencedReplyLit) (some [("text", Json.str "doc")]) =
      ⟨200, Json.obj [("suggestions", parsedClauseLit)]⟩ :=
  ⟨rfl, rfl⟩

/-- C2: whenever the fence-stripped model reply fails to parse as JSON, the
red-flags and suggestions endpoints return the single-element fallback array
with status 200; the parse failure never becomes an HTTP error. -/
theorem spec_C2 (reply t : String) (ht : pyStrip t ≠ "")
    (hparse : jsonLoads (stripCodeFence (pyStrip reply)) = none) :
    analyze_red_flags (.cred fun _ => .ok reply) (some [("text", Json.str t)]) =
      ⟨200, Json.arr [redflagsParseFallback]⟩ ∧
    get_suggestions (.cred fun _ => .ok reply) (some [("text", Json.str t)]) =
      ⟨200, Json.obj [("suggestions", Json.arr [suggestionsParseFallback])]⟩ := by
  rw [analyze_red_flags_cred_eq, get_suggestions_cred_eq]
  rw [if_neg ht, if_neg ht]
  constructor <;> simp [hparse, pyLen]

/-- Witness for C2 at the spec's example input `"not json at all"`. -/
theorem spec_C2_witness :
    pyStrip "doc" ≠ "" ∧
    jsonLoads (stripCodeFence (pyStrip "not json at all")) = none ∧
    (analyze_red_flags (.cred fun _ => .ok "not json at all")
        (some [("text", Json.str "doc")]) =
      ⟨200, Json.arr [redflagsParseFallback]⟩ ∧
    get_suggestions (.cred fun _ => .ok "not json at all")
        (some [("text", Json.str "doc")]) =
      ⟨200, Json.obj [("suggestions", Json.arr [suggestionsParseFallback])]⟩) :=
  ⟨by decide, rfl, spec_C2 "not json at all" "doc" (by decide) rfl⟩

/-- C10: successful parses undergo no shape validation: any reply whose
fence-stripped text parses as a JSON array, object or string is relayed
verbatim with status 200 by both structured endpoints. -/
theorem spec_C10 (reply t : String) (v : Json) (ht : pyStrip t ≠ "")
    (hparse : jsonLoads (stripCodeFence (pyStrip reply)) = some v)
    (hshape : (∃ l, v = Json.arr l) ∨ (∃ l, v = Json.obj l) ∨ (∃ s, v = Json.str s)) :
    analyze_red_flags (.cred fun _ => .ok reply) (some [("text", Json.str t)]) =
      ⟨200, v⟩ ∧
    get_suggestions (.cred fun _ => .ok reply) (some [("text", Json.str t)]) =
      ⟨200, Json.obj [("suggestions", v)]⟩ := by
  have hlen : ∃ n, pyLen v = .ok n := by
    rcases hshape with ⟨l, rfl⟩ | ⟨l, rfl⟩ | ⟨s, rfl⟩ <;> exact ⟨_, rfl⟩
  obtain ⟨n, hn⟩ := hlen
  rw [analyze_red_flags_cred_eq, get_suggestions_cred_eq]
  rw [if_neg ht, if_neg ht]
  constructor <;> simp [hparse, hn]

/-- Witness for C10 at a bare JSON string reply, which is not an array of
records yet is relayed verbatim. -/
theorem spec_C10_witness :
    pyStrip "doc" ≠ "" ∧
    jsonLoads (stripCodeFence (pyStrip "\"hello\"")) = some (Json.str "hello") ∧
    (analyze_red_flags (.cred fun _ => .ok "\"hello\"") (some [("text", Json.str "doc")]) =
      ⟨200, Json.str "hello"⟩ ∧
    get_suggestions (.cred fun _ => .ok "\"hello\"") (some [("text", Json.str "doc")]) =
      ⟨200, Json.obj [("suggestions", Json.str "hello")]⟩) :=
  ⟨by decide, rfl,
    spec_C10 "\"hello\"" "doc" (Json.str "hello") (by decide) rfl
      (Or.inr (Or.inr ⟨"hello", rfl⟩))⟩

/-- C8: the health endpoint always returns status 200 with the fixed status
string, the fixed version string and a boolean equal to whether the model
client was initialized; in particular it reports false in no-credential
mode. -/
theorem spec_C8 :
    (∀ gw : Gateway, health_check gw =
      ⟨200, Json.obj [("status", Json.str "healthy"),
        ("gemini_configured", Json.boolean gw.isConfigured),
        ("version", Json.str "1.0.0")]⟩) ∧
    health_check .noCred =
      ⟨200, Json.obj [("status", Json.str "healthy"),
        ("gemini_configured", Json.boolean false),
        ("version", Json.str "1.0.0")]⟩ :=
  ⟨fun _ => rfl, rfl⟩

/-- A nonempty lookup result implies a nonempty dict. -/
theorem Dict.get_isEmpty_false {d : Dict} {k : String} {v : Json}
    (h : Dict.get d k = some v) : d.isEmpty = false := by
  cases d with
  | nil => simp [Dict.get, List.lookup] at h
  | cons a l => rfl

/-- Shape of a client-error response: status 400 and an `error` key in the
body. -/
def clientErr (r : Resp) : Prop :=
  r.status = 400 ∧ (match r.body with
    | Json.obj l => (Dict.get l "error").isSome
    | _ => false) = true

/-- Every `errBody` response with status 400 is a client error. -/
theorem clientErr_errBody (m : String) : clientErr ⟨400, errBody m⟩ :=
  ⟨rfl, rfl⟩

/-- C3: for every mutating endpoint and every request with an absent body,
a missing required key, or a required string field that is blank after
trimming, the response has status 400 and its body carries an `error`
key. -/
theorem spec_C3 (gw : Gateway) :
    (clientErr (simplify_document gw none) ∧
     clientErr (analyze_red_flags gw none) ∧
     clientErr (answer_question gw none) ∧
     clientErr (improve_contract gw none) ∧
     clientErr (get_suggestions gw none)) ∧
    (∀ d : Dict, Dict.get d "text" = none →
      clientErr (simplify_document gw (some d)) ∧
      clientErr (analyze_red_flags gw (some d)) ∧
      clientErr (improve_contract gw (some d)) ∧
      clientErr (get_suggestions gw (some d))) ∧
    (∀ d : Dict, Dict.get d "text" = none ∨ Dict.get d "question" = none →
      clientErr (answer_question gw (some d))) ∧
    (∀ (d : Dict) (s : String), Dict.get d "text" = some (Json.str s) → pyStrip s = "" →
      clientErr (simplify_document gw (some d)) ∧
      clientErr (analyze_red_flags gw (some d)) ∧
      clientErr (improve_contract gw (some d)) ∧
      clientErr (get_suggestions gw (some d))) ∧
    (∀ (d : Dict) (s q : String), Dict.get d "text" = some (Json.str s) →
      Dict.get d "question" = some (Json.str q) →
      (pyStrip s = "" ∨ pyStrip q = "") →
      clientErr (answer_question gw (some d))) := by
  refine ⟨⟨clientErr_errBody _, clientErr_errBody _, clientErr_errBody _,
      clientErr_errBody _, clientErr_errBody _⟩, ?_, ?_, ?_, ?_⟩
  · intro d h
    have e1 : simplify_document gw (some d) = ⟨400, errBody "No document text provided"⟩ := by
      simp [simplify_document, h]
    have e2 : analyze_red_flags gw (some d) = ⟨400, errBody "No document text provided"⟩ := by
      simp [analyze_red_flags, h]
    have e3 : improve_contract gw (some d) = ⟨400, errBody "No contract text provided"⟩ := by
      simp [improve_contract, h]
    have e4 : get_suggestions gw (some d) = ⟨400, errBody "No contract text provided"⟩ := by
      simp [get_suggestions, h]
    exact ⟨e1 ▸ clientErr_errBody _, e2 ▸ clientErr_errBody _,
      e3 ▸ clientErr_errBody _, e4 ▸ clientErr_errBody _⟩
  · intro d h
    have e : answer_question gw (some d) =
        ⟨400, errBody "Document text and question are required"⟩ := by
      rcases h with h | h <;> simp [answer_question, h]
    exact e ▸ clientErr_errBody _
  · intro d s h hs
    have hne : d.isEmpty = false := Dict.get_isEmpty_false h
    have e1 : simplify_document gw (some d) = ⟨400, errBody "Empty document text"⟩ := by
      simp [simplify_document, h, hne, hs]
    have e2 : analyze_red_flags gw (some d) = ⟨400, errBody "Empty document text"⟩ := by
      simp [analyze_red_flags, h, hne, hs]
    have e3 : improve_contract gw (some d) = ⟨400, errBody "Empty contract text"⟩ := by
      simp [improve_contract, h, hne, hs]
    have e4 : get_suggestions gw (some d) = ⟨400, errBody "Empty contract text"⟩ := by
      simp [get_suggestions, h, hne, hs]
    exact ⟨e1 ▸ clientErr_errBody _, e2 ▸ clientErr_errBody _,
      e3 ▸ clientErr_errBody _, e4 ▸ clientErr_errBody _⟩
  · intro d s q hs hq hblank
    have hne : d.isEmpty = false := Dict.get_isEmpty_false hs
    have e : answer_question gw (some d) =
        ⟨400, errBody "Both document text and question must be provided"⟩ := by
      rcases hblank with hb | hb <;> simp [answer_question, hs, hq, hne, hb]
    exact e ▸ clientErr_errBody _

/-- Witness for C3: concrete instances of each failure mode, obtained from
the theorem at a missing body, a body without the key, and a blank field. -/
theorem spec_C3_witness :
    clientErr (simplify_document .noCred none) ∧
    clientErr (analyze_red_flags .noCred (some [("other", Json.null)])) ∧
    clientErr (answer_question .noCred (some [("text", Json.str "doc")])) ∧
    clientErr (get_suggestions .noCred (some [("text", Json.str "   ")])) ∧
    clientErr (answer_question .noCred
      (some [("text", Json.str "doc"), ("question", Json.str " \t ")])) :=
  ⟨((spec_C3 .noCred).1).1,
   (((spec_C3 .noCred).2.1) [("other", Json.null)] rfl).2.1,
   ((spec_C3 .noCred).2.2.1) [("text", Json.str "doc")] (Or.inr rfl),
   ((((spec_C3 .noCred).2.2.2.1) [("text", Json.str "   ")] "   " rfl) rfl).2.2.2,
   ((spec_C3 .noCred).2.2.2.2) [("text", Json.str "doc"), ("question", Json.str " \t ")]
     "doc" " \t " rfl rfl (Or.inr rfl)⟩

/-- C4 counterexample: in no-credential mode the improve endpoint's payload
does depend on the submitted text — two valid requests that differ only in
their document text receive different payloads, refuting the claim that
every endpoint's canned payload is fixed. -/
theorem spec_C4_counterexample :
    improve_contract .noCred (some [("text", Json.str "alpha")]) ≠
      improve_contract .noCred (some [("text", Json.str "beta")]) := by
  intro hEq
  have h3 := congrArg (fun r => match r.body with
    | Json.obj [(_, Json.str s)] => s
    | _ => "") hEq
  exact absurd h3 (by decide)

/-- C4 as amended: in no-credential mode no endpoint invokes a generation
function (structurally, `Gateway.noCred` carries none); simplify, redflags
and suggestions return fixed canned payloads independent of the text, Q&A
returns the canned answer selected by keyword match on the question, and
improve returns the submitted text with three hard-coded substring
replacements applied (hence text-dependent). -/
theorem spec_C4_amended (t q : String) (ht : pyStrip t ≠ "") (hq : pyStrip q ≠ "") :
    simplify_document .noCred (some [("text", Json.str t)]) =
      ⟨200, Json.obj [("simplified_text", Json.str simplifyMock)]⟩ ∧
    analyze_red_flags .noCred (some [("text", Json.str t)]) = ⟨200, redflagsMock⟩ ∧
    get_suggestions .noCred (some [("text", Json.str t)]) =
      ⟨200, Json.obj [("suggestions", suggestionsMock)]⟩ ∧
    answer_question .noCred (some [("text", Json.str t), ("question", Json.str q)]) =
      ⟨200, Json.obj [("answer", Json.str (qaMockAnswer (pyStrip q)))]⟩ ∧
    improve_contract .noCred (some [("text", Json.str t)]) =
      ⟨200, Json.obj [("improved_text", Json.str (improveMock (pyStrip t)))]⟩ := by
  rw [simplify_document_noCred_eq, analyze_red_flags_noCred_eq, get_suggestions_noCred_eq,
    answer_question_noCred_eq, improve_contract_noCred_eq]
  simp [ht, hq]

/-- Witness for the amended C4 at a concrete valid request. -/
theorem spec_C4_amended_witness :
    simplify_document .noCred (some [("text", Json.str "doc")]) =
      ⟨200, Json.obj [("simplified_text", Json.str simplifyMock)]⟩ ∧
    analyze_red_flags .noCred (some [("text", Json.str "doc")]) = ⟨200, redflagsMock⟩ ∧
    get_suggestions .noCred (some [("text", Json.str "doc")]) =
      ⟨200, Json.obj [("suggestions", suggestionsMock)]⟩ ∧
    answer_question .noCred (some [("text", Json.str "doc"), ("question", Json.str "hi")]) =
      ⟨200, Json.obj [("answer", Json.str (qaMockAnswer (pyStrip "hi")))]⟩ ∧
    improve_contract .noCred (some [("text", Json.str "doc")]) =
      ⟨200, Json.obj [("improved_text", Json.str (improveMock (pyStrip "doc")))]⟩ :=
  spec_C4_amended "doc" "hi" (by decide) (by decide)

/-- C5 counterexample: a question containing the substring `terminate` that
also contains `risk` is routed to the risk answer, not the termination
answer, refuting the claim that every question containing `terminate`
yields the termination-focused canned answer. -/
theorem spec_C5_counterexample :
    pyContains "terminate" (pyLower (pyStrip "Is it risky to terminate?")) = true ∧
    answer_question .noCred
        (some [("text", Json.str "doc"), ("question", Json.str "Is it risky to terminate?")]) =
      ⟨200, Json.obj [("answer", Json.str qaMockRisk)]⟩ ∧
    qaMockRisk ≠ qaMockTerminate :=
  ⟨rfl, rfl, by decide⟩

/-- C5 as amended: the routing checks, in order, the lowercased question
for risk/danger, then terminate/exit/leave, then financial/money/cost/pay;
so a question containing a termination keyword but no risk keyword yields
the termination answer, and a question containing none of the nine keywords
yields the default answer. -/
theorem spec_C5_amended (t q : String) (ht : pyStrip t ≠ "") (hq : pyStrip q ≠ "") :
    ((pyContains "terminate" (pyLower (pyStrip q)) = true ∨
      pyContains "exit" (pyLower (pyStrip q)) = true ∨
      pyContains "leave" (pyLower (pyStrip q)) = true) →
     pyContains "risk" (pyLower (pyStrip q)) = false →
     pyContains "danger" (pyLower (pyStrip q)) = false →
     answer_question .noCred (some [("text", Json.str t), ("question", Json.str q)]) =
       ⟨200, Json.obj [("answer", Json.str qaMockTerminate)]⟩) ∧
    (pyContains "risk" (pyLower (pyStrip q)) = false →
     pyContains "danger" (pyLower (pyStrip q)) = false →
     pyContains "terminate" (pyLower (pyStrip q)) = false →
     pyContains "exit" (pyLower (pyStrip q)) = false →
     pyContains "leave" (pyLower (pyStrip q)) = false →
     pyContains "financial" (pyLower (pyStrip q)) = false →
     pyContains "money" (pyLower (pyStrip q)) = false →
     pyContains "cost" (pyLower (pyStrip q)) = false →
     pyContains "pay" (pyLower (pyStrip q)) = false →
     answer_question .noCred (some [("text", Json.str t), ("question", Json.str q)]) =
       ⟨200, Json.obj [("answer", Json.str qaMockDefaultAnswer)]⟩) := by
  constructor
  · intro hkey hr hd
    rw [answer_question_noCred_eq]
    simp only [ht, hq]
    rcases hkey with h | h | h <;> simp [qaMockAnswer, hr, hd, h, ht, hq]
  · intro h1 h2 h3 h4 h5 h6 h7 h8 h9
    rw [answer_question_noCred_eq]
    simp [qaMockAnswer, h1, h2, h3, h4, h5, h6, h7, h8, h9, ht, hq]

/-- Witness for the amended C5 at two concrete questions. -/
theorem spec_C5_amended_witness :
    answer_question .noCred
        (some [("text", Json.str "doc"), ("question", Json.str "Can I exit early?")]) =
      ⟨200, Json.obj [("answer", Json.str qaMockTerminate)]⟩ ∧
    answer_question .noCred
        (some [("text", Json.str "doc"), ("question", Json.str "hello there")]) =
      ⟨200, Json.obj [("answer", Json.str qaMockDefaultAnswer)]⟩ :=
  ⟨(spec_C5_amended "doc" "Can I exit early?" (by decide) (by decide)).1
      (Or.inr (Or.inl rfl)) rfl rfl,
   (spec_C5_amended "doc" "hello there" (by decide) (by decide)).2
      rfl rfl rfl rfl rfl rfl rfl rfl rfl⟩

/-- C7: an exception raised by the model invocation after validation yields
a 500 response whose body is only the endpoint's generic message; the
response is the same for every exception detail `e`, so the detail is not
included in it. -/
theorem spec_C7 (e t q : String) (ht : pyStrip t ≠ "") (hq : pyStrip q ≠ "") :
    simplify_document (.cred fun _ => .error e) (some [("text", Json.str t)]) =
      ⟨500, errBody "Failed to process document. Please try again."⟩ ∧
    analyze_red_flags (.cred fun _ => .error e) (some [("text", Json.str t)]) =
      ⟨500, errBody "Failed to analyze document. Please try again."⟩ ∧
    answer_question (.cred fun _ => .error e)
        (some [("text", Json.str t), ("question", Json.str q)]) =
      ⟨500, errBody "Failed to process question. Please try again."⟩ ∧
    improve_contract (.cred fun _ => .error e) (some [("text", Json.str t)]) =
      ⟨500, errBody "Failed to improve contract. Please try again."⟩ ∧
    get_suggestions (.cred fun _ => .error e) (some [("text", Json.str t)]) =
      ⟨500, errBody "Failed to generate suggestions. Please try again."⟩ := by
  rw [simplify_document_cred_eq, analyze_red_flags_cred_eq, answer_question_cred_nohist_eq,
    improve_contract_cred_eq, get_suggestions_cred_eq]
  simp [ht, hq]

/-- Witness for C7 at a concrete exception message and valid request. -/
theorem spec_C7_witness :
    simplify_document (.cred fun _ => .error "boom") (some [("text", Json.str "doc")]) =
      ⟨500, errBody "Failed to process document. Please try again."⟩ ∧
    analyze_red_flags (.cred fun _ => .error "boom") (some [("text", Json.str "doc")]) =
      ⟨500, errBody "Failed to analyze document. Please try again."⟩ ∧
    answer_question (.cred fun _ => .error "boom")
        (some [("text", Json.str "doc"), ("question", Json.str "why")]) =
      ⟨500, errBody "Failed to process question. Please try again."⟩ ∧
    improve_contract (.cred fun _ => .error "boom") (some [("text", Json.str "doc")]) =
      ⟨500, errBody "Failed to improve contract. Please try again."⟩ ∧
    get_suggestions (.cred fun _ => .error "boom") (some [("text", Json.str "doc")]) =
      ⟨500, errBody "Failed to generate suggestions. Please try again."⟩ :=
  spec_C7 "boom" "doc" "why" (by decide) (by decide)

/-- Concatenation of a list of strings in order. -/
def concatAll : List String → String
  | [] => ""
  | s :: rest => s ++ concatAll rest

/-- A well-formed history entry with string question and answer, as the
front end supplies. -/
def entryJson (e : String × String) : Json :=
  Json.obj [("question", Json.str e.1), ("answer", Json.str e.2)]

/-- Rendering of one well-formed history entry. -/
def renderEntry (e : String × String) : String :=
  "Q: " ++ e.1 ++ "\nA: " ++ e.2 ++ "\n\n"

/-- Rendering a well-formed entry succeeds with its question followed by
its answer. -/
theorem qaRenderItem_entryJson (e : String × String) :
    qaRenderItem (entryJson e) = .ok (renderEntry e) := rfl

/-- The context loop over well-formed entries concatenates their renderings
in order. -/
theorem qaContextLoop_map (entries : List (String × String)) :
    qaContextLoop (entries.map entryJson) = .ok (concatAll (entries.map renderEntry)) := by
  induction entries with
  | nil => rfl
  | cons e rest ih => simp [qaContextLoop, qaRenderItem_entryJson, ih, concatAll]

/-- C6: for a Q&A request in credential mode with a nonempty history, the
conversational context interpolated into the prompt consists of the header
followed by exactly the renderings of the last three history entries (all
of them when fewer), in order, each as its question then its answer; and
entries before the last three contribute nothing — prepending any earlier
entries leaves the handler's response unchanged. -/
theorem spec_C6 :
    (∀ entries : List (String × String), entries ≠ [] →
      qaContext (Json.arr (entries.map entryJson)) =
        .ok ("\n\nPrevious conversation:\n" ++
          concatAll ((entries.drop (entries.length - 3)).map renderEntry))) ∧
    (∀ (gen : String → Except String String) (t q : String) (pre last : List Json),
      last.length = 3 →
      answer_question (.cred gen)
          (some [("text", Json.str t), ("question", Json.str q),
            ("history", Json.arr (pre ++ last))]) =
        answer_question (.cred gen)
          (some [("text", Json.str t), ("question", Json.str q),
            ("history", Json.arr last)])) := by
  constructor
  · intro entries hne
    have hE : (entries.map entryJson).isEmpty = false := by
      cases entries with
      | nil => exact absurd rfl hne
      | cons a b => rfl
    have hkey : qaContextLoop ((entries.map entryJson).drop (entries.length - 3)) =
        .ok (concatAll ((entries.drop (entries.length - 3)).map renderEntry)) := by
      rw [← List.map_drop]
      exact qaContextLoop_map _
    simp [qaContext, jTruthy, hE, List.length_map, hkey]
  · intro gen t q pre last h3
    rw [answer_question_cred_eq, answer_question_cred_eq]
    have hlastE : last.isEmpty = false := by
      cases last with
      | nil => simp at h3
      | cons a b => rfl
    have hallE : (pre ++ last).isEmpty = false := by
      cases hp : pre ++ last with
      | nil =>
        rcases List.append_eq_nil.mp hp with ⟨-, h2⟩
        rw [h2] at hlastE
        simp at hlastE
      | cons a b => rfl
    have hdropLast : last.drop (last.length - 3) = last := by
      rw [h3]
      simp
    rw [show qaContext (Json.arr (pre ++ last)) = qaContext (Json.arr last) by
      simp [qaContext, jTruthy, hallE, hlastE, hdropLast, List.length_append, h3,
        Nat.add_sub_cancel, List.drop_left]]

/-- Witness for C6 at a concrete four-entry history: the context holds the
last three entries only, and dropping the oldest entry leaves the response
unchanged. -/
theorem spec_C6_witness :
    qaContext (Json.arr ([("q1", "a1"), ("q2", "a2"), ("q3", "a3"), ("q4", "a4")].map
        entryJson)) =
      .ok ("\n\nPrevious conversation:\n" ++
        concatAll ([("q2", "a2"), ("q3", "a3"), ("q4", "a4")].map renderEntry)) ∧
    answer_question (.cred fun _ => .ok "ans")
        (some [("text", Json.str "doc"), ("question", Json.str "why"),
          ("history", Json.arr ([entryJson ("q1", "a1")] ++
            [entryJson ("q2", "a2"), entryJson ("q3", "a3"), entryJson ("q4", "a4")]))]) =
      answer_question (.cred fun _ => .ok "ans")
        (some [("text", Json.str "doc"), ("question", Json.str "why"),
          ("history", Json.arr [entryJson ("q2", "a2"), entryJson ("q3", "a3"),
            entryJson ("q4", "a4")])]) :=
  ⟨spec_C6.1 [("q1", "a1"), ("q2", "a2"), ("q3", "a3"), ("q4", "a4")] (by simp),
   spec_C6.2 (fun _ => .ok "ans") "doc" "why" [entryJson ("q1", "a1")]
     [entryJson ("q2", "a2"), entryJson ("q3", "a3"), entryJson ("q4", "a4")] rfl⟩

/-- A failing entry anywhere in the rendered list makes the context loop
fail. -/
theorem qaContextLoop_error_of_mem {l : List Json} {item : Json}
    (hmem : item ∈ l) (herr : ∃ e, qaRenderItem item = .error e) :
    ∃ e, qaContextLoop l = .error e := by
  induction l with
  | nil => cases hmem
  | cons hd tl ih =>
    rcases List.mem_cons.mp hmem with rfl | hmem'
    · obtain ⟨e, he⟩ := herr
      exact ⟨e, by simp [qaContextLoop, he]⟩
    · cases hhd : qaRenderItem hd with
      | error e => exact ⟨e, by simp [qaContextLoop, hhd]⟩
      | ok s =>
        obtain ⟨e, he⟩ := ih hmem'
        exact ⟨e, by simp [qaContextLoop, hhd, he]⟩

/-- C9: in credential mode, a history whose last three entries include an
object missing the `question` or `answer` key makes the key lookup raise;
the generic handler catches it and the response is the generic 500, the
question going unanswered. -/
theorem spec_C9 (gen : String → Except String String) (t q : String)
    (ht : pyStrip t ≠ "") (hqn : pyStrip q ≠ "")
    (items : List Json) (item : Json) (l : Dict)
    (hmem : item ∈ items.drop (items.length - 3))
    (hobj : item = Json.obj l)
    (hmiss : Dict.get l "question" = none ∨ Dict.get l "answer" = none) :
    answer_question (.cred gen)
        (some [("text", Json.str t), ("question", Json.str q),
          ("history", Json.arr items)]) =
      ⟨500, errBody "Failed to process question. Please try again."⟩ := by
  have herr : ∃ e, qaRenderItem item = .error e := by
    subst hobj
    rcases hmiss with h | h
    · exact ⟨"KeyError", by simp [qaRenderItem, pyGetItem, h]⟩
    · cases hqv : Dict.get l "question" with
      | none => exact ⟨"KeyError", by simp [qaRenderItem, pyGetItem, hqv]⟩
      | some v => exact ⟨"KeyError", by simp [qaRenderItem, pyGetItem, hqv, h]⟩
  obtain ⟨e, he⟩ := qaContextLoop_error_of_mem hmem herr
  have hitemsE : items.isEmpty = false := by
    cases items with
    | nil => simp at hmem
    | cons a b => rfl
  rw [answer_question_cred_eq]
  simp [ht, hqn, qaContext, jTruthy, hitemsE, he]

/-- Witness for C9 at a one-entry history whose entry lacks the `answer`
key. -/
theorem spec_C9_witness :
    answer_question (.cred fun _ => .ok "ans")
        (some [("text", Json.str "doc"), ("question", Json.str "why"),
          ("history", Json.arr [Json.obj [("question", Json.str "q1")]])]) =
      ⟨500, errBody "Failed to process question. Please try again."⟩ :=
  spec_C9 (fun _ => .ok "ans") "doc" "why" (by decide) (by decide)
    [Json.obj [("question", Json.str "q1")]] (Json.obj [("question", Json.str "q1")])
    [("question", Json.str "q1")] (by simp) rfl (Or.inr rfl)
